import Mathlib

/-!
Verification of the diagnosis pipeline in `src/vessy.py`.

The file embeds the pure logic of the script: the OCR wrapper
`extract_screen_text`, the prompt builder inside `diagnose`, the
response-validation / fallback policy of `diagnose` (built on a model of
Python `json.loads`), and the drawing loop `annotate_with_labels`.
External effects (the Groq network call, the OCR engine, PIL drawing) are
modelled as explicit inputs / outputs: the network call becomes a
`CallOutcome` value fed to `diagnose`, the OCR engine becomes an
`OcrOutcome` value fed to `extract_screen_text`, and drawing becomes a
list of `DrawOp` commands.
-/

namespace Vessy

/-- A Python value as produced by `json.loads`.  Numbers keep their source
lexeme (the script never computes with numbers, only stores and prints
them, so the lexeme is a faithful representation for every use the script
makes of a number). -/
inductive Json where
  | null
  | bool (b : Bool)
  | num (lex : String)
  | str (s : String)
  | arr (xs : List Json)
  | obj (fs : List (String × Json))
deriving Repr

/-- Characters stripped by Python `str.strip()` (the ASCII whitespace set;
the script only ever strips log text and OCR text, where these are the
whitespace characters that occur). -/
def pyIsSpace (c : Char) : Bool :=
  c = ' ' || c = '\t' || c = '\n' || c = '\r' || c = Char.ofNat 11 || c = Char.ofNat 12

/-- Python `str.strip()`: drop leading and trailing whitespace. -/
def pyStrip (s : String) : String :=
  String.mk (((s.data.dropWhile pyIsSpace).reverse.dropWhile pyIsSpace).reverse)

/-- Python truthiness of an optional string (`not x` is true exactly when
`x` is `None` or the empty string). -/
def pyTruthyOpt : Option String → Bool
  | none => false
  | some s => !(s == "")

/-! ### A model of Python `json.loads`

`diagnose` feeds the raw model output to `json.loads`.  The parser below
follows the `json` module: JSON whitespace between tokens, strings with
escape decoding, objects with last-occurrence-wins duplicate keys (value
updated in place, as for a Python dict), arrays, `true`/`false`/`null`,
numbers by the JSON grammar, and the Python extensions `NaN`, `Infinity`,
`-Infinity`.  Trailing non-whitespace input is a parse error ("Extra
data"), as is the empty document.  Recursion is fuel-indexed; the fuel
supplied by `json_loads` is an over-approximation of the call depth, so
it never runs out (at most three parser calls happen per consumed
character along any call chain). -/

/-- Whitespace accepted between JSON tokens. -/
def jsonWs (c : Char) : Bool :=
  c = ' ' || c = '\t' || c = '\n' || c = '\r'

/-- Drop leading JSON whitespace. -/
def skipWs : List Char → List Char
  | [] => []
  | c :: cs => if jsonWs c then skipWs cs else c :: cs

/-- The character U+007B (opening curly bracket). -/
def lbrace : Char := Char.ofNat 123

/-- The character U+007D (closing curly bracket). -/
def rbrace : Char := Char.ofNat 125

/-- The single-quote character U+0027 as a one-character string. -/
def squote : String := String.mk [Char.ofNat 39]

/-- Value of a hexadecimal digit. -/
def hexVal (c : Char) : Option Nat :=
  if '0' ≤ c && c ≤ '9' then some (c.toNat - 48)
  else if 'a' ≤ c && c ≤ 'f' then some (c.toNat - 87)
  else if 'A' ≤ c && c ≤ 'F' then some (c.toNat - 55)
  else none

/-- Consume an expected literal run of characters. -/
def dropLit : List Char → List Char → Option (List Char)
  | [], cs => some cs
  | p :: ps, c :: cs => if c = p then dropLit ps cs else none
  | _ :: _, [] => none

/-- Parse the body of a JSON string (after the opening quote), decoding
escape sequences the way the `json` module does; raw control characters
are rejected (strict mode).  A surrogate pair combines into one scalar; a
lone surrogate escape becomes U+FFFD (a Lean `Char` cannot hold a
surrogate; the script never puts such strings anywhere this matters). -/
def parseStringBody : Nat → List Char → List Char → Option (String × List Char)
  | 0, _, _ => none
  | _ + 1, [], _ => none
  | fuel + 1, c :: rest, acc =>
    if c = '"' then some (String.mk acc.reverse, rest)
    else if c = '\\' then
      match rest with
      | [] => none
      | e :: rest2 =>
        if e = '"' then parseStringBody fuel rest2 ('"' :: acc)
        else if e = '\\' then parseStringBody fuel rest2 ('\\' :: acc)
        else if e = '/' then parseStringBody fuel rest2 ('/' :: acc)
        else if e = 'b' then parseStringBody fuel rest2 (Char.ofNat 8 :: acc)
        else if e = 'f' then parseStringBody fuel rest2 (Char.ofNat 12 :: acc)
        else if e = 'n' then parseStringBody fuel rest2 ('\n' :: acc)
        else if e = 'r' then parseStringBody fuel rest2 ('\r' :: acc)
        else if e = 't' then parseStringBody fuel rest2 ('\t' :: acc)
        else if e = 'u' then
          match rest2 with
          | h1 :: h2 :: h3 :: h4 :: rest3 =>
            match hexVal h1, hexVal h2, hexVal h3, hexVal h4 with
            | some a, some b, some c2, some d =>
              let n := ((a * 16 + b) * 16 + c2) * 16 + d
              if 0xD800 ≤ n && n < 0xDC00 then
                match rest3 with
                | '\\' :: 'u' :: l1 :: l2 :: l3 :: l4 :: rest4 =>
                  match hexVal l1, hexVal l2, hexVal l3, hexVal l4 with
                  | some p, some q, some r, some s2 =>
                    let m := ((p * 16 + q) * 16 + r) * 16 + s2
                    if 0xDC00 ≤ m && m < 0xE000 then
                      parseStringBody fuel rest4
                        (Char.ofNat (0x10000 + (n - 0xD800) * 0x400 + (m - 0xDC00)) :: acc)
                    else parseStringBody fuel rest3 (Char.ofNat 0xFFFD :: acc)
                  | _, _, _, _ => parseStringBody fuel rest3 (Char.ofNat 0xFFFD :: acc)
                | _ => parseStringBody fuel rest3 (Char.ofNat 0xFFFD :: acc)
              else if 0xDC00 ≤ n && n < 0xE000 then
                parseStringBody fuel rest3 (Char.ofNat 0xFFFD :: acc)
              else parseStringBody fuel rest3 (Char.ofNat n :: acc)
            | _, _, _, _ => none
          | _ => none
        else none
    else if c.toNat < 0x20 then none
    else parseStringBody fuel rest (c :: acc)

/-- Split a leading run of decimal digits from the input. -/
def spanDigits (cs : List Char) : List Char × List Char :=
  (cs.takeWhile Char.isDigit, cs.dropWhile Char.isDigit)

/-- Integer part of a JSON number: `0` or a nonzero digit followed by
digits.  (`json.loads` rejects leading zeros: after a leading `0` the
number ends, and any following digit is trailing junk.) -/
def parseIntPart : List Char → Option (List Char × List Char)
  | '0' :: rest => some (['0'], rest)
  | c :: rest =>
    if c.isDigit then
      let (ds, rest2) := spanDigits rest
      some (c :: ds, rest2)
    else none
  | [] => none

/-- Optional fraction part `.digits` of a JSON number; when the dot is
not followed by a digit the fraction is absent and the dot stays in the
remaining input (where it then fails as trailing junk, as in Python). -/
def parseFrac : List Char → List Char × List Char
  | '.' :: d :: rest =>
    if d.isDigit then
      let (ds, rest2) := spanDigits (d :: rest)
      ('.' :: ds, rest2)
    else ([], '.' :: d :: rest)
  | cs => ([], cs)

/-- Optional exponent part of a JSON number. -/
def parseExp : List Char → List Char × List Char
  | e :: rest =>
    if e = 'e' || e = 'E' then
      match rest with
      | s :: rest2 =>
        if s = '+' || s = '-' then
          match spanDigits rest2 with
          | ([], _) => ([], e :: rest)
          | (ds, rest3) => ([e, s] ++ ds, rest3)
        else
          match spanDigits (s :: rest2) with
          | ([], _) => ([], e :: rest)
          | (ds, rest3) => (e :: ds, rest3)
      | [] => ([], [e])
    else ([], e :: rest)
  | [] => ([], [])

/-- Parse a JSON number at the head of the input, returning its source
lexeme. -/
def parseNumber (cs : List Char) : Option (String × List Char) :=
  match cs with
  | '-' :: rest =>
    match parseIntPart rest with
    | some (ip, rest2) =>
      let (fp, rest3) := parseFrac rest2
      let (ep, rest4) := parseExp rest3
      some (String.mk ('-' :: (ip ++ fp ++ ep)), rest4)
    | none => none
  | _ =>
    match parseIntPart cs with
    | some (ip, rest2) =>
      let (fp, rest3) := parseFrac rest2
      let (ep, rest4) := parseExp rest3
      some (String.mk (ip ++ fp ++ ep), rest4)
    | none => none

/-- Insert a key into an association list with Python dict semantics:
an existing key keeps its position and gets the new value; a new key is
appended at the end. -/
def objInsert : List (String × Json) → String → Json → List (String × Json)
  | [], k, v => [(k, v)]
  | (k0, v0) :: rest, k, v =>
    if k0 = k then (k0, v) :: rest else (k0, v0) :: objInsert rest k v

mutual

/-- Parse one JSON value, allowing leading whitespace. -/
def parseValue : Nat → List Char → Option (Json × List Char)
  | 0, _ => none
  | fuel + 1, cs0 =>
    match skipWs cs0 with
    | [] => none
    | c :: cs =>
      if c = '"' then
        match parseStringBody (cs.length + 1) cs [] with
        | some (s, rest) => some (Json.str s, rest)
        | none => none
      else if c = lbrace then parseObjectBody fuel cs
      else if c = '[' then parseArrayBody fuel cs
      else if c = 't' then
        (dropLit ['r', 'u', 'e'] cs).map (fun rest => (Json.bool true, rest))
      else if c = 'f' then
        (dropLit ['a', 'l', 's', 'e'] cs).map (fun rest => (Json.bool false, rest))
      else if c = 'n' then
        (dropLit ['u', 'l', 'l'] cs).map (fun rest => (Json.null, rest))
      else if c = 'N' then
        (dropLit ['a', 'N'] cs).map (fun rest => (Json.num "NaN", rest))
      else if c = 'I' then
        (dropLit ['n', 'f', 'i', 'n', 'i', 't', 'y'] cs).map
          (fun rest => (Json.num "Infinity", rest))
      else if c = '-' then
        match dropLit ['I', 'n', 'f', 'i', 'n', 'i', 't', 'y'] cs with
        | some rest => some (Json.num "-Infinity", rest)
        | none => (parseNumber (c :: cs)).map (fun p => (Json.num p.1, p.2))
      else (parseNumber (c :: cs)).map (fun p => (Json.num p.1, p.2))

/-- Parse the inside of a JSON object, the opening bracket already
consumed. -/
def parseObjectBody : Nat → List Char → Option (Json × List Char)
  | 0, _ => none
  | fuel + 1, cs =>
    match skipWs cs with
    | [] => none
    | c :: rest =>
      if c = rbrace then some (Json.obj [], rest)
      else parseMembers fuel (c :: rest) []

/-- Parse the members of a nonempty JSON object. -/
def parseMembers : Nat → List Char → List (String × Json) →
    Option (Json × List Char)
  | 0, _, _ => none
  | fuel + 1, cs, acc =>
    match skipWs cs with
    | '"' :: rest =>
      match parseStringBody (rest.length + 1) rest [] with
      | some (k, rest2) =>
        match skipWs rest2 with
        | ':' :: rest3 =>
          match parseValue fuel rest3 with
          | some (v, rest4) =>
            let acc2 := objInsert acc k v
            match skipWs rest4 with
            | ',' :: rest5 => parseMembers fuel rest5 acc2
            | c :: rest5 =>
              if c = rbrace then some (Json.obj acc2, rest5) else none
            | [] => none
          | none => none
        | _ => none
      | none => none
    | _ => none

/-- Parse the inside of a JSON array, the opening bracket already
consumed. -/
def parseArrayBody : Nat → List Char → Option (Json × List Char)
  | 0, _ => none
  | fuel + 1, cs =>
    match skipWs cs with
    | ']' :: rest => some (Json.arr [], rest)
    | cs2 => parseElems fuel cs2 []

/-- Parse the elements of a nonempty JSON array. -/
def parseElems : Nat → List Char → List Json → Option (Json × List Char)
  | 0, _, _ => none
  | fuel + 1, cs, acc =>
    match parseValue fuel cs with
    | some (v, rest) =>
      match skipWs rest with
      | ',' :: rest2 => parseElems fuel rest2 (v :: acc)
      | ']' :: rest2 => some (Json.arr (v :: acc).reverse, rest2)
      | _ => none
    | none => none

end

/-- Model of Python `json.loads`: parse one JSON document, allow only
whitespace after it ("Extra data" otherwise), fail on the empty
document. -/
def json_loads (s : String) : Option Json :=
  match parseValue (4 * s.data.length + 16) s.data with
  | some (j, rest) => if skipWs rest = [] then some j else none
  | none => none

/-! ### The OCR wrapper `extract_screen_text` -/

/-- What the OCR pipeline inside `extract_screen_text` does on a given
image: either some step (`np.array`, `cv2.cvtColor`, `cv2.threshold`,
`pytesseract.image_to_string`) raises, or pytesseract yields a text. -/
inductive OcrOutcome where
  | throws
  | yields (text : String)

/-- `extract_screen_text` (src/vessy.py lines 69-77): return the
stripped OCR text when it is non-empty, `None` when it strips to empty
(`return text.strip() if text.strip() else None`), and `None` when any
step raises (`except Exception: return None`). -/
def extract_screen_text : OcrOutcome → Option String
  | OcrOutcome.throws => none
  | OcrOutcome.yields text =>
    if pyStrip text = "" then none else some (pyStrip text)

/-! ### `diagnose`: prompt building, validation, fallback policy -/

/-- The fixed record `diagnose` returns when both inputs are empty
(src/vessy.py lines 82-97), transcribed field by field. -/
def EMPTY_INPUT_FALLBACK : Json :=
  Json.obj
    [("status", Json.str "WORKING"),
     ("domain", Json.str "unknown"),
     ("error_summary", Json.str "No information provided"),
     ("root_cause", Json.str "Insufficient input"),
     ("explanation", Json.str "No logs or readable screen content were shared."),
     ("next_steps", Json.arr
       [Json.obj
         [("action", Json.str
            "Upload a clearer screenshot or paste the exact error message"),
          ("expected_result", Json.str
            "The issue can be diagnosed accurately")]]),
     ("confidence", Json.str "high"),
     ("needs_verification", Json.bool false),
     ("visual_labels", Json.arr [])]

/-- The fixed record `diagnose` returns when the model output cannot be
parsed (src/vessy.py lines 125-140), transcribed field by field. -/
def PARSE_FAILURE_FALLBACK : Json :=
  Json.obj
    [("status", Json.str "ERROR"),
     ("domain", Json.str "unknown"),
     ("error_summary", Json.str "Unable to parse diagnosis"),
     ("root_cause", Json.str "Model output was unclear"),
     ("explanation", Json.str
        "The information provided was not sufficient to form a reliable diagnosis."),
     ("next_steps", Json.arr
       [Json.obj
         [("action", Json.str
            "Provide only the relevant error or a clearer screenshot"),
          ("expected_result", Json.str
            "The root cause becomes identifiable")]]),
     ("confidence", Json.str "low"),
     ("needs_verification", Json.bool true),
     ("visual_labels", Json.arr [])]

/-- Python `dict.setdefault(k, v)` on an association list: if the key is
present nothing changes, otherwise the pair is appended at the end. -/
def setdefault (fs : List (String × Json)) (k : String) (v : Json) :
    List (String × Json) :=
  if (fs.lookup k).isSome then fs else fs ++ [(k, v)]

/-- The two `setdefault` calls of src/vessy.py lines 121-122, in source
order: first `visual_labels`, then `next_steps`. -/
def validated_fields (fs : List (String × Json)) : List (String × Json) :=
  setdefault (setdefault fs "visual_labels" (Json.arr [])) "next_steps"
    (Json.arr [])

/-- The try/except block of src/vessy.py lines 119-140 applied to the
message content obtained from the completion object.  `none` content
models a completion whose text could not be read inside the `try` (null
`message.content`, or no choices): `json.loads` then raises and the
`except` returns the fallback.  Text that is not valid JSON: `json.loads`
raises, fallback.  A JSON value that is not an object: `.setdefault`
raises `AttributeError` (caught by the same bare `except`), fallback.  A
JSON object: the two `setdefault` calls run and the dict is returned. -/
def validate_response : Option String → Json
  | none => PARSE_FAILURE_FALLBACK
  | some s =>
    match json_loads s with
    | some (Json.obj fs) => Json.obj (validated_fields fs)
    | some _ => PARSE_FAILURE_FALLBACK
    | none => PARSE_FAILURE_FALLBACK

/-- What the Groq call `llm.chat.completions.create(...)` (src/vessy.py
lines 109-117) does on a given run: raise (network error, missing
credential, non-2xx, transport failure), or return a completion carrying
an optional message content. -/
inductive CallOutcome where
  | raised
  | returned (content : Option String)

/-- The user prompt built by `diagnose` (src/vessy.py lines 99-107): the
log section when `context_text.strip()` is truthy, then the screenshot
section when `image_text` is truthy, then the fixed closing
instruction. -/
def build_user_content (context_text : String) (image_text : Option String) :
    String :=
  (if pyStrip context_text ≠ "" then
     "LOGS / TEXT:\n" ++ context_text ++ "\n\n" else "")
  ++ (match image_text with
      | some t => if t ≠ "" then
          "VISIBLE TEXT FROM SCREENSHOT:\n" ++ t ++ "\n\n" else ""
      | none => "")
  ++ "Base your diagnosis strictly on the information above."

/-- The log section contributed to the prompt. -/
def logSection (context_text : String) : String :=
  if pyStrip context_text ≠ "" then
    "LOGS / TEXT:\n" ++ context_text ++ "\n\n" else ""

/-- The screenshot section contributed to the prompt. -/
def screenshotSection : Option String → String
  | some t => if t ≠ "" then
      "VISIBLE TEXT FROM SCREENSHOT:\n" ++ t ++ "\n\n" else ""
  | none => ""

/-- The fixed instruction fragment closing every prompt. -/
def EVIDENCE_INSTRUCTION : String :=
  "Base your diagnosis strictly on the information above."

/-- `diagnose` (src/vessy.py lines 80-140).  When both inputs are falsy
after stripping the log text, the empty-input record is returned before
any call is made (the `CallOutcome` argument is not consulted).
Otherwise the prompt is built and the Groq call runs: that call stands
OUTSIDE the try/except, so an exception it raises leaves `diagnose`
uncaught — modelled as `Except.error ()`.  When the call returns, the
try/except of lines 119-140 produces the validated record. -/
def diagnose (context_text : String) (image_text : Option String)
    (call : CallOutcome) : Except Unit Json :=
  if pyStrip context_text = "" ∧ pyTruthyOpt image_text = false then
    Except.ok EMPTY_INPUT_FALLBACK
  else
    match call with
    | CallOutcome.raised => Except.error ()
    | CallOutcome.returned content => Except.ok (validate_response content)

/-- Key lookup on a Json value: a field of an object, nothing
otherwise. -/
def Json.objLookup : Json → String → Option Json
  | Json.obj fs, k => fs.lookup k
  | _, _ => none

/-- Whether a Json value is an object (a Python dict). -/
def Json.isObj : Json → Bool
  | Json.obj _ => true
  | _ => false

/-! ### `annotate_with_labels`: the drawing loop

The labels come straight from the validated `visual_labels` list, so a
label is an arbitrary `Json` value; the f-string `f"{i}. {label}"`
renders it with Python `str`, whose containers in turn use `repr` on
their elements.  `pyStr`/`pyRepr` model that rendering (numbers render
as their lexeme and strings are not re-escaped — close enough for every
value the claims touch, and exact on the concrete inputs used below).
Drawing on the PIL image is modelled as the list of draw calls made, in
order; the image itself never influences what is drawn. -/

mutual

/-- Python `str` of a decoded JSON value. -/
def pyStr : Json → String
  | Json.null => "None"
  | Json.bool b => if b then "True" else "False"
  | Json.num lex => lex
  | Json.str s => s
  | Json.arr xs => "[" ++ pyReprList xs ++ "]"
  | Json.obj fs => String.mk [lbrace] ++ pyReprFields fs ++ String.mk [rbrace]

/-- Python `repr` of a decoded JSON value (used inside containers). -/
def pyRepr : Json → String
  | Json.null => "None"
  | Json.bool b => if b then "True" else "False"
  | Json.num lex => lex
  | Json.str s => squote ++ s ++ squote
  | Json.arr xs => "[" ++ pyReprList xs ++ "]"
  | Json.obj fs => String.mk [lbrace] ++ pyReprFields fs ++ String.mk [rbrace]

/-- Comma-separated reprs of list elements. -/
def pyReprList : List Json → String
  | [] => ""
  | [x] => pyRepr x
  | x :: y :: xs => pyRepr x ++ ", " ++ pyReprList (y :: xs)

/-- Comma-separated reprs of dict entries. -/
def pyReprFields : List (String × Json) → String
  | [] => ""
  | [(k, v)] => squote ++ k ++ squote ++ ": " ++ pyRepr v
  | (k, v) :: f :: fs =>
    squote ++ k ++ squote ++ ": " ++ pyRepr v ++ ", " ++ pyReprFields (f :: fs)

end

/-- An RGB color. -/
abbrev Color := Nat × Nat × Nat

/-- One drawing call made on the PIL image. -/
inductive DrawOp where
  | rect (x0 y0 x1 y1 : Int) (fill : Color) (outline : Color) (width : Nat)
  | text (x y : Int) (s : String) (fill : Color)
deriving Repr

/-- The two draw calls `annotate_with_labels` makes for one label, given
the running vertical offset `y` and the 1-based index `i`
(src/vessy.py lines 147-157). -/
def labelOps (y : Int) (i : Nat) (label : Json) : List DrawOp :=
  let t := Nat.repr i ++ ". " ++ pyStr label
  let boxWidth : Int := Int.ofNat (t.length * 9 + 20)
  [DrawOp.rect 20 (y - 8) (20 + boxWidth) (y + 28) (255, 220, 220)
     (255, 80, 80) 2,
   DrawOp.text 30 y t (0, 0, 0)]

/-- The drawing loop of `annotate_with_labels`, started at offset `y`
and index `i`; the offset advances by 45 per label. -/
def annotateFrom (y : Int) (i : Nat) : List Json → List DrawOp
  | [] => []
  | l :: ls => labelOps y i l ++ annotateFrom (y + 45) (i + 1) ls

/-- `annotate_with_labels` (src/vessy.py lines 143-160): `y` starts at
30, `enumerate(labels, start=1)` starts the index at 1. -/
def annotate_with_labels (labels : List Json) : List DrawOp :=
  annotateFrom 30 1 labels

/-- The fill color of a draw call. -/
def DrawOp.fillOf : DrawOp → Color
  | DrawOp.rect _ _ _ _ f _ _ => f
  | DrawOp.text _ _ _ f => f

/-! ### Helper lemmas on association-list lookup and `setdefault` -/

theorem lookup_append_some {l1 l2 : List (String × Json)} {k : String}
    {v : Json} (h : l1.lookup k = some v) : (l1 ++ l2).lookup k = some v := by
  induction l1 with
  | nil => simp [List.lookup] at h
  | cons p rest ih =>
    obtain ⟨k0, v0⟩ := p
    by_cases hk : k = k0
    · subst hk
      simpa [List.lookup] using h
    · simp only [List.cons_append, List.lookup, beq_eq_false_iff_ne.mpr hk] at h ⊢
      exact ih h

theorem lookup_append_none {l1 l2 : List (String × Json)} {k : String}
    (h : l1.lookup k = none) : (l1 ++ l2).lookup k = l2.lookup k := by
  induction l1 with
  | nil => rfl
  | cons p rest ih =>
    obtain ⟨k0, v0⟩ := p
    by_cases hk : k = k0
    · subst hk
      simp [List.lookup] at h
    · simp only [List.cons_append, List.lookup, beq_eq_false_iff_ne.mpr hk] at h ⊢
      exact ih h

theorem setdefault_of_present {fs : List (String × Json)} {k : String}
    {v : Json} (h : (fs.lookup k).isSome) : setdefault fs k v = fs := by
  unfold setdefault
  rw [if_pos h]

theorem setdefault_lookup_some {fs : List (String × Json)} {k k0 : String}
    {v v0 : Json} (h : fs.lookup k0 = some v0) :
    (setdefault fs k v).lookup k0 = some v0 := by
  unfold setdefault
  split
  · exact h
  · exact lookup_append_some h

theorem lookup_setdefault_absent {fs : List (String × Json)} {k : String}
    {v : Json} (h : fs.lookup k = none) :
    (setdefault fs k v).lookup k = some v := by
  unfold setdefault
  rw [if_neg (by simp [h])]
  rw [lookup_append_none h]
  simp [List.lookup]

theorem lookup_setdefault_self (fs : List (String × Json)) (k : String)
    (v : Json) : ((setdefault fs k v).lookup k).isSome := by
  cases hl : fs.lookup k with
  | some w => rw [setdefault_lookup_some hl]; rfl
  | none => rw [lookup_setdefault_absent hl]; rfl

theorem lookup_setdefault_ne {fs : List (String × Json)} {k k0 : String}
    {v : Json} (h : k0 ≠ k) :
    (setdefault fs k v).lookup k0 = fs.lookup k0 := by
  unfold setdefault
  split
  · rfl
  · cases hl : fs.lookup k0 with
    | some w => exact lookup_append_some hl
    | none =>
      rw [lookup_append_none hl]
      simp [List.lookup, beq_eq_false_iff_ne.mpr h]

theorem validated_lookup_some {fs : List (String × Json)} {k : String}
    {v : Json} (h : fs.lookup k = some v) :
    (validated_fields fs).lookup k = some v :=
  setdefault_lookup_some (setdefault_lookup_some h)

theorem validated_visual_labels_absent {fs : List (String × Json)}
    (h : fs.lookup "visual_labels" = none) :
    (validated_fields fs).lookup "visual_labels" = some (Json.arr []) :=
  setdefault_lookup_some (lookup_setdefault_absent h)

theorem validated_next_steps_absent {fs : List (String × Json)}
    (h : fs.lookup "next_steps" = none) :
    (validated_fields fs).lookup "next_steps" = some (Json.arr []) := by
  unfold validated_fields
  apply lookup_setdefault_absent
  rw [lookup_setdefault_ne (by decide)]
  exact h

theorem validated_visual_labels_isSome (fs : List (String × Json)) :
    ((validated_fields fs).lookup "visual_labels").isSome := by
  cases hl : fs.lookup "visual_labels" with
  | some w => rw [validated_lookup_some hl]; rfl
  | none => rw [validated_visual_labels_absent hl]; rfl

theorem validated_next_steps_isSome (fs : List (String × Json)) :
    ((validated_fields fs).lookup "next_steps").isSome :=
  lookup_setdefault_self _ _ _

theorem validated_of_present {fs : List (String × Json)}
    (h1 : (fs.lookup "visual_labels").isSome)
    (h2 : (fs.lookup "next_steps").isSome) : validated_fields fs = fs := by
  unfold validated_fields
  rw [setdefault_of_present h1, setdefault_of_present h2]

/-! ### The claims -/

/-- Claim C2 (confirmed): with whitespace-only log text and no OCR text,
`diagnose` returns the fixed empty-input record regardless of what the
external call would do (the `call` argument is arbitrary, even `raised`:
the call is never attempted), and that record has status `WORKING`,
confidence `high`, and a next-step list holding exactly one
supply-evidence instruction. -/
theorem spec_C2_empty_input (context_text : String) (call : CallOutcome)
    (h : pyStrip context_text = "") :
    diagnose context_text none call = Except.ok EMPTY_INPUT_FALLBACK ∧
    Json.objLookup EMPTY_INPUT_FALLBACK "status" = some (Json.str "WORKING") ∧
    Json.objLookup EMPTY_INPUT_FALLBACK "confidence" = some (Json.str "high") ∧
    Json.objLookup EMPTY_INPUT_FALLBACK "next_steps" =
      some (Json.arr [Json.obj
        [("action", Json.str
           "Upload a clearer screenshot or paste the exact error message"),
         ("expected_result", Json.str
           "The issue can be diagnosed accurately")]]) := by
  refine ⟨?_, rfl, rfl, rfl⟩
  unfold diagnose
  rw [if_pos ⟨h, rfl⟩]

/-- Claim C2, witness: the theorem applied to whitespace input and a
raising call. -/
theorem spec_C2_witness :
    pyStrip "   " = "" ∧
    (diagnose "   " none CallOutcome.raised = Except.ok EMPTY_INPUT_FALLBACK ∧
     Json.objLookup EMPTY_INPUT_FALLBACK "status" = some (Json.str "WORKING") ∧
     Json.objLookup EMPTY_INPUT_FALLBACK "confidence" = some (Json.str "high") ∧
     Json.objLookup EMPTY_INPUT_FALLBACK "next_steps" =
       some (Json.arr [Json.obj
         [("action", Json.str
            "Upload a clearer screenshot or paste the exact error message"),
          ("expected_result", Json.str
            "The issue can be diagnosed accurately")]])) :=
  ⟨rfl, spec_C2_empty_input "   " CallOutcome.raised rfl⟩

/-- Claim C4 (confirmed): when the log text is non-whitespace and the
external call returns text that is not valid JSON, `diagnose` returns the
fixed parse-failure record, whose confidence is `low`, status `ERROR`,
and next-step list non-empty. -/
theorem spec_C4_invalid_json (context_text : String)
    (image_text : Option String) (raw : String)
    (hctx : pyStrip context_text ≠ "") (h : json_loads raw = none) :
    diagnose context_text image_text (CallOutcome.returned (some raw)) =
      Except.ok PARSE_FAILURE_FALLBACK ∧
    validate_response (some raw) = PARSE_FAILURE_FALLBACK ∧
    Json.objLookup PARSE_FAILURE_FALLBACK "confidence" = some (Json.str "low") ∧
    Json.objLookup PARSE_FAILURE_FALLBACK "status" = some (Json.str "ERROR") ∧
    Json.objLookup PARSE_FAILURE_FALLBACK "next_steps" =
      some (Json.arr [Json.obj
        [("action", Json.str
           "Provide only the relevant error or a clearer screenshot"),
         ("expected_result", Json.str
           "The root cause becomes identifiable")]]) ∧
    [Json.obj
       [("action", Json.str
          "Provide only the relevant error or a clearer screenshot"),
        ("expected_result", Json.str
          "The root cause becomes identifiable")]] ≠ ([] : List Json) := by
  have hv : validate_response (some raw) = PARSE_FAILURE_FALLBACK := by
    simp only [validate_response, h]
  refine ⟨?_, hv, rfl, rfl, rfl, List.cons_ne_nil _ _⟩
  unfold diagnose
  rw [if_neg (fun hc => hctx hc.1)]
  exact congrArg Except.ok hv

/-- Claim C4, witness: the theorem applied to the raw response
"not json". -/
theorem spec_C4_witness :
    pyStrip "KeyError: foo" ≠ "" ∧ json_loads "not json" = none ∧
    json_loads "" = none ∧
    diagnose "KeyError: foo" none (CallOutcome.returned (some "not json")) =
      Except.ok PARSE_FAILURE_FALLBACK :=
  ⟨by decide, rfl, rfl,
   (spec_C4_invalid_json "KeyError: foo" none "not json" (by decide) rfl).1⟩

/-- Claim C5 (confirmed): whenever the raw response parses as a JSON
object, the result is that object after the two `setdefault` calls:
every field present in the payload keeps its value, and each of
`visual_labels` and `next_steps`, when absent, is present and equal to
the empty list. -/
theorem spec_C5_optional_defaults (raw : String)
    (fs : List (String × Json)) (h : json_loads raw = some (Json.obj fs)) :
    validate_response (some raw) = Json.obj (validated_fields fs) ∧
    (∀ k v, fs.lookup k = some v → (validated_fields fs).lookup k = some v) ∧
    (fs.lookup "visual_labels" = none →
      (validated_fields fs).lookup "visual_labels" = some (Json.arr [])) ∧
    (fs.lookup "next_steps" = none →
      (validated_fields fs).lookup "next_steps" = some (Json.arr [])) := by
  refine ⟨?_, fun k v hv => validated_lookup_some hv,
    fun hv => validated_visual_labels_absent hv,
    fun hv => validated_next_steps_absent hv⟩
  simp only [validate_response, h]

/-- Claim C5, witness: a payload missing both optional list fields gets
them defaulted to empty and keeps its `status` field. -/
theorem spec_C5_witness :
    json_loads "\x7b\"status\": \"ERROR\"\x7d" =
      some (Json.obj [("status", Json.str "ERROR")]) ∧
    validate_response (some "\x7b\"status\": \"ERROR\"\x7d") =
      Json.obj (validated_fields [("status", Json.str "ERROR")]) ∧
    (validated_fields [("status", Json.str "ERROR")]).lookup "status" =
      some (Json.str "ERROR") ∧
    (validated_fields [("status", Json.str "ERROR")]).lookup "visual_labels" =
      some (Json.arr []) ∧
    (validated_fields [("status", Json.str "ERROR")]).lookup "next_steps" =
      some (Json.arr []) :=
  ⟨rfl,
   (spec_C5_optional_defaults "\x7b\"status\": \"ERROR\"\x7d"
     [("status", Json.str "ERROR")] rfl).1,
   (spec_C5_optional_defaults "\x7b\"status\": \"ERROR\"\x7d"
     [("status", Json.str "ERROR")] rfl).2.1 "status" (Json.str "ERROR") rfl,
   (spec_C5_optional_defaults "\x7b\"status\": \"ERROR\"\x7d"
     [("status", Json.str "ERROR")] rfl).2.2.1 rfl,
   (spec_C5_optional_defaults "\x7b\"status\": \"ERROR\"\x7d"
     [("status", Json.str "ERROR")] rfl).2.2.2 rfl⟩

/-- Claim C6 (confirmed): a raw response that parses to a JSON object
already carrying the `visual_labels` and `next_steps` fields passes
through validation unchanged — the result is exactly the structured form
of the response. -/
theorem spec_C6_roundtrip (raw : String) (fs : List (String × Json))
    (h : json_loads raw = some (Json.obj fs))
    (h1 : (fs.lookup "visual_labels").isSome)
    (h2 : (fs.lookup "next_steps").isSome) :
    validate_response (some raw) = Json.obj fs := by
  have : validate_response (some raw) = Json.obj (validated_fields fs) := by
    simp only [validate_response, h]
  rw [this, validated_of_present h1 h2]

/-- Claim C6, witness: a schema-conforming document round-trips
field-for-field. -/
theorem spec_C6_witness :
    json_loads
      "\x7b\"status\": \"WORKING\", \"next_steps\": [], \"visual_labels\": []\x7d" =
      some (Json.obj [("status", Json.str "WORKING"),
        ("next_steps", Json.arr []), ("visual_labels", Json.arr [])]) ∧
    validate_response
      (some "\x7b\"status\": \"WORKING\", \"next_steps\": [], \"visual_labels\": []\x7d") =
      Json.obj [("status", Json.str "WORKING"),
        ("next_steps", Json.arr []), ("visual_labels", Json.arr [])] :=
  ⟨rfl, spec_C6_roundtrip
    "\x7b\"status\": \"WORKING\", \"next_steps\": [], \"visual_labels\": []\x7d"
    [("status", Json.str "WORKING"), ("next_steps", Json.arr []),
     ("visual_labels", Json.arr [])] rfl rfl rfl⟩

/-- Claim C8 (confirmed): `extract_screen_text` is a total function into
an optional text (never an exception): `None` when any extraction step
throws, `None` when the OCR text strips to empty, and the stripped OCR
text when it is non-whitespace. -/
theorem spec_C8_ocr :
    extract_screen_text OcrOutcome.throws = none ∧
    (∀ text, pyStrip text = "" →
      extract_screen_text (OcrOutcome.yields text) = none) ∧
    (∀ text, pyStrip text ≠ "" →
      extract_screen_text (OcrOutcome.yields text) = some (pyStrip text)) := by
  refine ⟨rfl, fun t ht => ?_, fun t ht => ?_⟩
  · show (if pyStrip t = "" then none else some (pyStrip t)) = none
    rw [if_pos ht]
  · show (if pyStrip t = "" then none else some (pyStrip t)) = some (pyStrip t)
    rw [if_neg ht]

/-- Claim C8, witness: the theorem applied to a throwing OCR run, a
whitespace-only text and a proper text. -/
theorem spec_C8_witness :
    extract_screen_text OcrOutcome.throws = none ∧
    pyStrip " \n " = "" ∧
    extract_screen_text (OcrOutcome.yields " \n ") = none ∧
    pyStrip " Error 404 \n" ≠ "" ∧
    extract_screen_text (OcrOutcome.yields " Error 404 \n") = some "Error 404" :=
  ⟨spec_C8_ocr.1, rfl, spec_C8_ocr.2.1 " \n " rfl, by decide,
   spec_C8_ocr.2.2 " Error 404 \n" (by decide)⟩

/-- Claim C1, counterexample: the Groq call stands outside the
try/except of `diagnose` (the `try` begins only at the `json.loads`
line), so on non-empty input an exception raised during the call leaves
`diagnose` as an unhandled exception — it is not converted to the
parse-failure fallback. -/
theorem spec_C1_counterexample :
    diagnose "Traceback: ConnectionError" none CallOutcome.raised =
      Except.error () ∧
    (Except.error () : Except Unit Json) ≠ Except.ok PARSE_FAILURE_FALLBACK := by
  refine ⟨?_, fun h => Except.noConfusion h⟩
  unfold diagnose
  rw [if_neg (fun hc => absurd hc.1 (by decide))]

/-- Claim C1 (corrected): when the external call RETURNS, every raw
response (any text, or unreadable content) yields exactly one of
successfully-parsed result or parse-failure fallback, and `diagnose`
never fails; but when the call itself RAISES on non-empty input, the
exception propagates uncaught out of `diagnose`. -/
theorem spec_C1_amended (context_text : String) (image_text : Option String)
    (content : Option String) :
    (∃ r, diagnose context_text image_text (CallOutcome.returned content) =
      Except.ok r) ∧
    (validate_response content = PARSE_FAILURE_FALLBACK ∨
      ∃ s fs, content = some s ∧ json_loads s = some (Json.obj fs) ∧
        validate_response content = Json.obj (validated_fields fs)) ∧
    (pyStrip context_text ≠ "" →
      diagnose context_text image_text CallOutcome.raised =
        Except.error ()) := by
  refine ⟨?_, ?_, fun h => ?_⟩
  · unfold diagnose
    split
    · exact ⟨EMPTY_INPUT_FALLBACK, rfl⟩
    · exact ⟨validate_response content, rfl⟩
  · match content with
    | none => exact Or.inl rfl
    | some s =>
      cases hj : json_loads s with
      | none => exact Or.inl (by simp only [validate_response, hj])
      | some j =>
        cases j with
        | obj fs =>
          exact Or.inr ⟨s, fs, rfl, hj, by simp only [validate_response, hj]⟩
        | null => exact Or.inl (by simp only [validate_response, hj])
        | bool b => exact Or.inl (by simp only [validate_response, hj])
        | num lex => exact Or.inl (by simp only [validate_response, hj])
        | str s2 => exact Or.inl (by simp only [validate_response, hj])
        | arr xs => exact Or.inl (by simp only [validate_response, hj])
  · unfold diagnose
    rw [if_neg (fun hc => h hc.1)]

/-- Claim C1, witness: the amended theorem applied to non-empty log
text, an unparsable response and a raising call. -/
theorem spec_C1_witness :
    (∃ r, diagnose "ValueError" none (CallOutcome.returned (some "not json")) =
      Except.ok r) ∧
    (validate_response (some "not json") = PARSE_FAILURE_FALLBACK ∨
      ∃ s fs, (some "not json" : Option String) = some s ∧
        json_loads s = some (Json.obj fs) ∧
        validate_response (some "not json") = Json.obj (validated_fields fs)) ∧
    pyStrip "ValueError" ≠ "" ∧
    diagnose "ValueError" none CallOutcome.raised = Except.error () :=
  ⟨(spec_C1_amended "ValueError" none (some "not json")).1,
   (spec_C1_amended "ValueError" none (some "not json")).2.1,
   by decide,
   (spec_C1_amended "ValueError" none (some "not json")).2.2 (by decide)⟩

/-- Claim C3, counterexample: the response `"{}"` is valid JSON missing
every required field; `diagnose` does NOT substitute the parse-failure
fallback — it returns the partially-filled record holding only the two
defaulted list fields, with no `status` field for the presentation layer
to read. -/
theorem spec_C3_counterexample :
    diagnose "some log" none (CallOutcome.returned (some "\x7b\x7d")) =
      Except.ok (Json.obj
        [("visual_labels", Json.arr []), ("next_steps", Json.arr [])]) ∧
    Json.objLookup (Json.obj
        [("visual_labels", Json.arr []), ("next_steps", Json.arr [])])
      "status" = none ∧
    Json.obj [("visual_labels", Json.arr []), ("next_steps", Json.arr [])] ≠
      PARSE_FAILURE_FALLBACK := by
  refine ⟨?_, rfl, ?_⟩
  · unfold diagnose
    rw [if_neg (fun hc => absurd hc.1 (by decide))]
    rfl
  · intro h
    simp [PARSE_FAILURE_FALLBACK] at h

/-- Claim C3 (corrected): a response that is valid JSON but NOT an
object is replaced by the complete parse-failure fallback; a response
that is a JSON object is returned after defaulting only `visual_labels`
and `next_steps` — an object missing other required fields is returned
partially filled, not replaced by the fallback. -/
theorem spec_C3_amended (raw : String) (j : Json)
    (h : json_loads raw = some j) :
    (∀ fs, j = Json.obj fs →
      validate_response (some raw) = Json.obj (validated_fields fs)) ∧
    (j.isObj = false →
      validate_response (some raw) = PARSE_FAILURE_FALLBACK) := by
  constructor
  · intro fs hfs
    subst hfs
    simp only [validate_response, h]
  · intro hobj
    cases j with
    | obj fs => simp [Json.isObj] at hobj
    | null => simp only [validate_response, h]
    | bool b => simp only [validate_response, h]
    | num lex => simp only [validate_response, h]
    | str s2 => simp only [validate_response, h]
    | arr xs => simp only [validate_response, h]

/-- Claim C3, witness: the amended theorem applied to a valid JSON
array, which is not an object and so becomes the fallback. -/
theorem spec_C3_witness :
    json_loads "[]" = some (Json.arr []) ∧
    (Json.arr []).isObj = false ∧
    validate_response (some "[]") = PARSE_FAILURE_FALLBACK :=
  ⟨rfl, rfl, (spec_C3_amended "[]" (Json.arr []) rfl).2 rfl⟩

/-- Claim C10 (confirmed): every record `diagnose` returns (empty-input
fallback, validated object, or parse-failure fallback) is an object
carrying both the `visual_labels` and the `next_steps` key; and a
response parsing to a non-object JSON value makes the guarded
`setdefault` calls fail, so validation yields the parse-failure fallback
rather than the non-object value. -/
theorem spec_C10_invariant :
    (∀ (context_text : String) (image_text : Option String)
       (call : CallOutcome) (r : Json),
      diagnose context_text image_text call = Except.ok r →
      (Json.objLookup r "visual_labels").isSome ∧
      (Json.objLookup r "next_steps").isSome) ∧
    (∀ (s : String) (j : Json), json_loads s = some j → j.isObj = false →
      validate_response (some s) = PARSE_FAILURE_FALLBACK) := by
  constructor
  · intro ctx img call r h
    unfold diagnose at h
    split at h
    · injection h with h2
      subst h2
      exact ⟨rfl, rfl⟩
    · cases call with
      | raised => exact Except.noConfusion h
      | returned content =>
        injection h with h2
        subst h2
        match content with
        | none => exact ⟨rfl, rfl⟩
        | some s =>
          cases hj : json_loads s with
          | none =>
            have hv : validate_response (some s) = PARSE_FAILURE_FALLBACK := by
              simp only [validate_response, hj]
            rw [hv]
            exact ⟨rfl, rfl⟩
          | some j =>
            cases j with
            | obj fs =>
              have hv : validate_response (some s) =
                  Json.obj (validated_fields fs) := by
                simp only [validate_response, hj]
              rw [hv]
              exact ⟨validated_visual_labels_isSome fs,
                validated_next_steps_isSome fs⟩
            | null =>
              have hv : validate_response (some s) = PARSE_FAILURE_FALLBACK := by
                simp only [validate_response, hj]
              rw [hv]
              exact ⟨rfl, rfl⟩
            | bool b =>
              have hv : validate_response (some s) = PARSE_FAILURE_FALLBACK := by
                simp only [validate_response, hj]
              rw [hv]
              exact ⟨rfl, rfl⟩
            | num lex =>
              have hv : validate_response (some s) = PARSE_FAILURE_FALLBACK := by
                simp only [validate_response, hj]
              rw [hv]
              exact ⟨rfl, rfl⟩
            | str s2 =>
              have hv : validate_response (some s) = PARSE_FAILURE_FALLBACK := by
                simp only [validate_response, hj]
              rw [hv]
              exact ⟨rfl, rfl⟩
            | arr xs =>
              have hv : validate_response (some s) = PARSE_FAILURE_FALLBACK := by
                simp only [validate_response, hj]
              rw [hv]
              exact ⟨rfl, rfl⟩
  · intro s j hj hobj
    cases j with
    | obj fs => simp [Json.isObj] at hobj
    | null => simp only [validate_response, hj]
    | bool b => simp only [validate_response, hj]
    | num lex => simp only [validate_response, hj]
    | str s2 => simp only [validate_response, hj]
    | arr xs => simp only [validate_response, hj]

/-- Claim C10, witness: the theorem applied to a run whose response is
the JSON array `["x"]`. -/
theorem spec_C10_witness :
    diagnose "log" none (CallOutcome.returned (some "[\"x\"]")) =
      Except.ok PARSE_FAILURE_FALLBACK ∧
    (Json.objLookup PARSE_FAILURE_FALLBACK "visual_labels").isSome ∧
    (Json.objLookup PARSE_FAILURE_FALLBACK "next_steps").isSome ∧
    json_loads "[\"x\"]" = some (Json.arr [Json.str "x"]) ∧
    validate_response (some "[\"x\"]") = PARSE_FAILURE_FALLBACK :=
  ⟨rfl,
   (spec_C10_invariant.1 "log" none (CallOutcome.returned (some "[\"x\"]"))
     PARSE_FAILURE_FALLBACK rfl).1,
   (spec_C10_invariant.1 "log" none (CallOutcome.returned (some "[\"x\"]"))
     PARSE_FAILURE_FALLBACK rfl).2,
   rfl,
   spec_C10_invariant.2 "[\"x\"]" (Json.arr [Json.str "x"]) rfl rfl⟩

theorem append_left_ne_empty {a : String} (b : String) (ha : a ≠ "") :
    a ++ b ≠ "" := by
  intro he
  apply ha
  have hl := congrArg String.length he
  rw [String.length_append] at hl
  cases a with
  | mk data =>
    cases data with
    | nil => rfl
    | cons c cs =>
      rw [show (String.mk (c :: cs)).length = cs.length + 1 from rfl,
        show ("" : String).length = 0 from rfl] at hl
      omega

/-- Claim C7 (confirmed): the composed prompt is exactly the log
section, then the screenshot section, then the fixed instruction
fragment; each section is present (with its header) precisely when its
input is, and empty otherwise, so the prompt holds the log header iff
the log text is non-whitespace and the screenshot header iff OCR text
is present; the prompt always ends with the instruction fragment.
Prompt building is a pure function of the two inputs (no side
effects). -/
theorem spec_C7_prompt (context_text : String) (image_text : Option String) :
    build_user_content context_text image_text =
      (logSection context_text ++ screenshotSection image_text) ++
        EVIDENCE_INSTRUCTION ∧
    (logSection context_text = "" ↔ pyStrip context_text = "") ∧
    (pyStrip context_text ≠ "" →
      logSection context_text = "LOGS / TEXT:\n" ++ context_text ++ "\n\n") ∧
    (screenshotSection image_text = "" ↔ pyTruthyOpt image_text = false) ∧
    (∀ t, image_text = some t → t ≠ "" →
      screenshotSection image_text =
        "VISIBLE TEXT FROM SCREENSHOT:\n" ++ t ++ "\n\n") ∧
    (∃ a, build_user_content context_text image_text =
      a ++ EVIDENCE_INSTRUCTION) := by
  have h1 : build_user_content context_text image_text =
      (logSection context_text ++ screenshotSection image_text) ++
        EVIDENCE_INSTRUCTION := by
    cases image_text <;> rfl
  refine ⟨h1, ⟨?_, ?_⟩, fun h => ?_, ?_, fun t ht htne => ?_,
    ⟨logSection context_text ++ screenshotSection image_text, h1⟩⟩
  · intro he
    by_contra hne
    have hlog : logSection context_text =
        "LOGS / TEXT:\n" ++ context_text ++ "\n\n" := by
      unfold logSection
      rw [if_pos hne]
    rw [hlog] at he
    exact append_left_ne_empty "\n\n"
      (append_left_ne_empty context_text (by decide)) he
  · intro he
    unfold logSection
    rw [if_neg (not_not_intro he)]
  · unfold logSection
    rw [if_pos h]
  · cases image_text with
    | none => simp [screenshotSection, pyTruthyOpt]
    | some t =>
      by_cases ht : t = ""
      · subst ht
        simp [screenshotSection, pyTruthyOpt]
      · constructor
        · intro he
          simp only [screenshotSection, if_pos ht] at he
          exact absurd he (append_left_ne_empty "\n\n"
            (append_left_ne_empty t (by decide)))
        · intro hb
          simp [pyTruthyOpt, ht] at hb
  · subst ht
    simp only [screenshotSection]
    rw [if_pos htne]

/-- Claim C7, witness: the theorem applied to concrete log text and
OCR text. -/
theorem spec_C7_witness :
    logSection "stack trace" = "LOGS / TEXT:\nstack trace\n\n" ∧
    screenshotSection (some "Error dialog") =
      "VISIBLE TEXT FROM SCREENSHOT:\nError dialog\n\n" ∧
    build_user_content "stack trace" (some "Error dialog") =
      (logSection "stack trace" ++ screenshotSection (some "Error dialog")) ++
        EVIDENCE_INSTRUCTION :=
  ⟨(spec_C7_prompt "stack trace" (some "Error dialog")).2.2.1 (by decide),
   (spec_C7_prompt "stack trace" (some "Error dialog")).2.2.2.2.1
     "Error dialog" rfl (by decide),
   (spec_C7_prompt "stack trace" (some "Error dialog")).1⟩

/-- Claim C9, counterexample: the drawing code never inspects a
severity; a label carrying `severity: "error"` and one carrying
`severity: "info"` are both drawn with the same fixed fill
`(255, 220, 220)` (and black text), exactly as a plain string label —
there is no severity-to-color mapping. -/
theorem spec_C9_counterexample :
    (annotate_with_labels
      [Json.obj [("label", Json.str "OK button"),
                 ("severity", Json.str "error")]]).map DrawOp.fillOf =
      [(255, 220, 220), (0, 0, 0)] ∧
    (annotate_with_labels
      [Json.obj [("label", Json.str "OK button"),
                 ("severity", Json.str "info")]]).map DrawOp.fillOf =
      [(255, 220, 220), (0, 0, 0)] ∧
    (annotate_with_labels [Json.str "OK button"]).map DrawOp.fillOf =
      [(255, 220, 220), (0, 0, 0)] :=
  ⟨rfl, rfl, rfl⟩

theorem annotateFrom_eq (ls : List Json) : ∀ (y : Int) (i : Nat),
    annotateFrom y i ls =
      (ls.mapIdx fun j l => labelOps (y + 45 * (j : Int)) (i + j) l).flatten := by
  induction ls with
  | nil => intro y i; rfl
  | cons hd tl ih =>
    intro y i
    rw [List.mapIdx_cons, List.flatten_cons]
    show labelOps y i hd ++ annotateFrom (y + 45) (i + 1) tl = _
    have e0 : labelOps (y + 45 * ((0 : Nat) : Int)) (i + 0) hd =
        labelOps y i hd := by
      norm_num
    rw [e0, ih (y + 45) (i + 1)]
    have hfun : (fun (j : Nat) (l : Json) =>
          labelOps (y + 45 * ((j + 1 : Nat) : Int)) (i + (j + 1)) l)
        = fun (j : Nat) (l : Json) =>
          labelOps ((y + 45) + 45 * (j : Int)) ((i + 1) + j) l := by
      funext j l
      have e1 : y + 45 * ((j + 1 : Nat) : Int) = (y + 45) + 45 * (j : Int) := by
        push_cast
        ring
      have e2 : i + (j + 1) = (i + 1) + j := by omega
      rw [e1, e2]
    rw [hfun]

/-- Claim C9 (corrected): `annotate_with_labels` draws, for the label of
0-based index `j` (1-indexed `i = j + 1`), a rectangle and the text
`"{i}. {label}"` at the fixed vertical offset `y = 30 + 45 * j` — the
offsets strictly increase top-to-bottom by 45 per label — always with
the single fixed fill `(255, 220, 220)`, outline `(255, 80, 80)` and
black text, regardless of any severity carried by the label; the drawn
geometry is a function of the label list alone, not of the image
content. -/
theorem spec_C9_amended :
    (∀ labels : List Json, annotate_with_labels labels =
      (labels.mapIdx fun j l =>
        labelOps (30 + 45 * (j : Int)) (1 + j) l).flatten) ∧
    (∀ (y : Int) (i : Nat) (l : Json), labelOps y i l =
      [DrawOp.rect 20 (y - 8)
        (20 + Int.ofNat ((Nat.repr i ++ ". " ++ pyStr l).length * 9 + 20))
        (y + 28) (255, 220, 220) (255, 80, 80) 2,
       DrawOp.text 30 y (Nat.repr i ++ ". " ++ pyStr l) (0, 0, 0)]) :=
  ⟨fun labels => annotateFrom_eq labels 30 1, fun _ _ _ => rfl⟩

end Vessy
